import Mathlib

/-!
Verification of the navbar visibility coordination logic of
src/js/components/navbars.js (module mobile-angular-ui.components.navbars).

The module keeps a single module-level variable global (the shared nav
controller), registers one side controller per navbar side (top, bottom)
whose four methods (hide, show, slideout, slidein) manipulate CSS classes
on the root element and on the navbar element, and a family of toggle
directives that dispatch those methods through global.

The embedding below models CSS class lists as lists of strings with the
set-like addClass and removeClass operations of angular jqLite, the DOM
state relevant to the module as a structure with the root element class
list and the class list of each navbar element, and each link function of
the source as a pure state transformer.
-/

namespace Navbars

/-- The class attribute of a DOM element, as a list of class names. -/
abbrev Classes := List String

/-- jqLite element.addClass: appends the class name unless it is present. -/
def addClass (cs : Classes) (c : String) : Classes :=
  if c ∈ cs then cs else cs ++ [c]

/-- jqLite element.removeClass: removes every occurrence of the class name. -/
def removeClass (cs : Classes) (c : String) : Classes :=
  cs.filter (fun x => x ≠ c)

/-- The two navbar sides iterated over by the source
(angular.forEach(['top', 'bottom'], ...), navbars.js line 143). -/
inductive Side
  | top
  | bottom
deriving DecidableEq, Repr

/-- The string the source uses for a side. -/
def Side.str : Side → String
  | .top => "top"
  | .bottom => "bottom"

/-- The root element class managed for a side: 'has-navbar-' + side. -/
def hasNavbarClass (s : Side) : String := "has-navbar-" ++ s.str

/-- The DOM state the module manipulates: the class list of $rootElement
and the class list of each navbar element. -/
structure NavState where
  root : Classes
  topElem : Classes
  bottomElem : Classes
deriving DecidableEq, Repr

/-- The class list of the navbar element of a side. -/
def NavState.elemOf (st : NavState) : Side → Classes
  | .top => st.topElem
  | .bottom => st.bottomElem

/-- Replace the class list of the navbar element of a side. -/
def NavState.setElem (st : NavState) : Side → Classes → NavState
  | .top, cs => { st with topElem := cs }
  | .bottom, cs => { st with bottomElem := cs }

/-- Side controller method hide (navbars.js lines 158-161):
$rootElement.removeClass("has-navbar-" + side); elem.addClass("ng-hide"). -/
def ctrlHide (side : Side) (st : NavState) : NavState :=
  let st1 := { st with root := removeClass st.root (hasNavbarClass side) }
  st1.setElem side (addClass (st1.elemOf side) "ng-hide")

/-- Side controller method show (navbars.js lines 162-165):
elem.removeClass("ng-hide"); $rootElement.addClass("has-navbar-" + side). -/
def ctrlShow (side : Side) (st : NavState) : NavState :=
  let st1 := st.setElem side (removeClass (st.elemOf side) "ng-hide")
  { st1 with root := addClass st1.root (hasNavbarClass side) }

/-- Side controller method slideout (navbars.js lines 166-169):
$rootElement.removeClass("has-navbar-" + side); elem.addClass("ng-hide"). -/
def ctrlSlideout (side : Side) (st : NavState) : NavState :=
  let st1 := { st with root := removeClass st.root (hasNavbarClass side) }
  st1.setElem side (addClass (st1.elemOf side) "ng-hide")

/-- Side controller method slidein (navbars.js lines 170-173):
elem.removeClass("ng-hide"); $rootElement.addClass("has-navbar-" + side). -/
def ctrlSlidein (side : Side) (st : NavState) : NavState :=
  let st1 := st.setElem side (removeClass (st.elemOf side) "ng-hide")
  { st1 with root := addClass st1.root (hasNavbarClass side) }

/-- The four method names iterated over by the toggle directives
(angular.forEach(['hide', 'show', 'slidein', 'slideout'], ...), line 195). -/
inductive Method
  | hide
  | show
  | slidein
  | slideout
deriving DecidableEq, Repr

/-- Invoking a side controller method on the DOM state. -/
def applyMethod : Method → Side → NavState → NavState
  | .hide, s, st => ctrlHide s st
  | .show, s, st => ctrlShow s st
  | .slidein, s, st => ctrlSlidein s st
  | .slideout, s, st => ctrlSlideout s st

/-- The navController directive controller (navbars.js lines 107-111).
Its registerController method stores a side controller under a property
name; a stored side controller is identified by the side its closure
captured (the closures of lines 157-174 capture side and elem, and elem
for a side is the elemOf field of that side). The id field models object
identity of the controller instance, so that reassignment of the
module-level global variable is observable. -/
structure NavCtrl where
  id : Nat
  top : Option Side := none
  bottom : Option Side := none
deriving DecidableEq, Repr

/-- this[name] = ctrl (navbars.js line 109). -/
def NavCtrl.registerController (g : NavCtrl) : Side → Side → NavCtrl
  | .top, c => { g with top := some c }
  | .bottom, c => { g with bottom := some c }

/-- Property lookup global[name]: none models the undefined value. -/
def NavCtrl.slot (g : NavCtrl) : Side → Option Side
  | .top => g.top
  | .bottom => g.bottom

/-- The module state: the module-level variable global (line 89, none
models its initial undefined value) together with the DOM state. -/
structure ModState where
  global : Option NavCtrl
  dom : NavState
deriving DecidableEq, Repr

/-- The link function of navbarAbsoluteTop and navbarAbsoluteBottom
(navbars.js lines 151-175): adds 'has-navbar-' + side to the root element,
assigns global only when it is not yet set (if (!global) global = ctrl),
and registers on global the side controller for this side under the
property named by the side. ctrl is the fresh navController controller of
this navbar element. The $destroy handler is not invoked during link. -/
def navbarAbsoluteLink (side : Side) (ctrl : NavCtrl) (ms : ModState) : ModState :=
  let dom := { ms.dom with root := addClass ms.dom.root (hasNavbarClass side) }
  let g :=
    match ms.global with
    | none => ctrl
    | some g0 => g0
  { global := some (g.registerController side side), dom := dom }

/-- The three navbar selectors iterated over by the toggle directives
(angular.forEach(['Top', 'Bottom', 'Both'], ...), line 194). -/
inductive Nav
  | Top
  | Bottom
  | Both
deriving DecidableEq, Repr

/-- global[side][method](): none models the TypeError thrown when
global[side] is undefined; a registered controller exposes all four
methods, so dispatch succeeds exactly when the slot is filled. -/
def dispatch (g : NavCtrl) (side : Side) (m : Method) (st : NavState) : Option NavState :=
  match g.slot side with
  | none => none
  | some captured => some (applyMethod m captured st)

/-- The link function of the toggle directives (navbars.js lines 200-207):
if (global) then for Both invoke the method on global.bottom and then on
global.top, otherwise on global[nav.toLowerCase()]; when global is
undefined nothing happens. none models a thrown TypeError. -/
def toggleLink (nav : Nav) (m : Method) (global : Option NavCtrl) (st : NavState) :
    Option NavState :=
  match global with
  | none => some st
  | some g =>
    match nav with
    | .Both => (dispatch g Side.bottom m st).bind (fun st1 => dispatch g Side.top m st1)
    | .Top => dispatch g Side.top m st
    | .Bottom => dispatch g Side.bottom m st

/-- A navbar is visible: its element is not ng-hidden and the root element
carries the has-navbar class of its side. -/
def VisibleC (s : Side) (st : NavState) : Prop :=
  "ng-hide" ∉ st.elemOf s ∧ hasNavbarClass s ∈ st.root

/-- A navbar is hidden: its element is ng-hidden and the root element does
not carry the has-navbar class of its side. -/
def HiddenC (s : Side) (st : NavState) : Prop :=
  "ng-hide" ∈ st.elemOf s ∧ hasNavbarClass s ∉ st.root

/-- A navbar is in a condition distinct from both visible and hidden. -/
def MidTransitionC (s : Side) (st : NavState) : Prop :=
  ¬ VisibleC s st ∧ ¬ HiddenC s st

/-- The per-navbar class invariant: the navbar element carries ng-hide
exactly when the root element does not carry the has-navbar class. -/
def NavInv (s : Side) (st : NavState) : Prop :=
  ("ng-hide" ∈ st.elemOf s) ↔ hasNavbarClass s ∉ st.root

instance (s : Side) (st : NavState) : Decidable (VisibleC s st) := by
  unfold VisibleC; infer_instance

instance (s : Side) (st : NavState) : Decidable (HiddenC s st) := by
  unfold HiddenC; infer_instance

instance (s : Side) (st : NavState) : Decidable (MidTransitionC s st) := by
  unfold MidTransitionC; infer_instance

instance (s : Side) (st : NavState) : Decidable (NavInv s st) := by
  unfold NavInv; infer_instance

/-- The DOM states reachable from a given state by invoking side
controller methods. -/
inductive ReachableFrom (init : NavState) : NavState → Prop
  | refl : ReachableFrom init init
  | step (st : NavState) (m : Method) (s : Side) :
      ReachableFrom init st → ReachableFrom init (applyMethod m s st)

/-- Initial module state: global undefined, clean class lists. -/
def ms0 : ModState :=
  { global := none, dom := { root := [], topElem := [], bottomElem := [] } }

/-- The navController controller instance of the top navbar element. -/
def ctrl0 : NavCtrl := { id := 0 }

/-- The navController controller instance of the bottom navbar element. -/
def ctrl1 : NavCtrl := { id := 1 }

/-- Module state after linking both navbar directives, top first. -/
def msLinked : ModState :=
  navbarAbsoluteLink Side.bottom ctrl1 (navbarAbsoluteLink Side.top ctrl0 ms0)

/-- DOM state after linking both navbar directives. -/
def stInit : NavState := msLinked.dom

/-- A controller with both sides registered, as msLinked.global holds. -/
def gFull : NavCtrl := { id := 0, top := some Side.top, bottom := some Side.bottom }

/-- The side controllers a toggle variant invokes are all registered: both
for the Both variants, the matching one for Top and Bottom variants. -/
def referencedRegistered (nav : Nav) (g : NavCtrl) : Prop :=
  match nav with
  | .Both => (g.slot Side.bottom).isSome = true ∧ (g.slot Side.top).isSome = true
  | .Top => (g.slot Side.top).isSome = true
  | .Bottom => (g.slot Side.bottom).isSome = true

/-! Helper lemmas about class list operations and the embedding. -/

theorem mem_addClass_iff (cs : Classes) (c d : String) :
    d ∈ addClass cs c ↔ (d ∈ cs ∨ d = c) := by
  by_cases h : c ∈ cs
  · simp only [addClass, if_pos h]
    constructor
    · exact Or.inl
    · rintro (hd | rfl)
      · exact hd
      · exact h
  · simp [addClass, if_neg h]

theorem mem_removeClass_iff (cs : Classes) (c d : String) :
    d ∈ removeClass cs c ↔ (d ∈ cs ∧ d ≠ c) := by
  simp [removeClass]

theorem addClass_idem (cs : Classes) (c : String) :
    addClass (addClass cs c) c = addClass cs c := by
  by_cases h : c ∈ cs <;> simp [addClass, h]

theorem removeClass_idem (cs : Classes) (c : String) :
    removeClass (removeClass cs c) c = removeClass cs c := by
  simp [removeClass, List.filter_filter]

theorem registerController_id (g : NavCtrl) (n c : Side) :
    (g.registerController n c).id = g.id := by
  cases n <;> rfl

theorem ctrlHide_root (s : Side) (st : NavState) :
    (ctrlHide s st).root = removeClass st.root (hasNavbarClass s) := by
  cases s <;> rfl

theorem ctrlHide_elemOf (s t : Side) (st : NavState) :
    (ctrlHide s st).elemOf t =
      if t = s then addClass (st.elemOf s) "ng-hide" else st.elemOf t := by
  cases s <;> cases t <;> rfl

theorem ctrlShow_root (s : Side) (st : NavState) :
    (ctrlShow s st).root = addClass st.root (hasNavbarClass s) := by
  cases s <;> rfl

theorem ctrlShow_elemOf (s t : Side) (st : NavState) :
    (ctrlShow s st).elemOf t =
      if t = s then removeClass (st.elemOf s) "ng-hide" else st.elemOf t := by
  cases s <;> cases t <;> rfl

theorem hasNavbarClass_ne (s t : Side) (h : s ≠ t) :
    hasNavbarClass s ≠ hasNavbarClass t := by
  cases s <;> cases t <;> first | exact absurd rfl h | decide

theorem navInv_ctrlHide (s t : Side) (st : NavState) (h : NavInv t st) :
    NavInv t (ctrlHide s st) := by
  unfold NavInv at h ⊢
  rw [ctrlHide_root, ctrlHide_elemOf]
  by_cases hts : t = s
  · subst hts
    simp [mem_addClass_iff, mem_removeClass_iff]
  · have hne : hasNavbarClass t ≠ hasNavbarClass s := hasNavbarClass_ne t s hts
    simpa [hts, mem_removeClass_iff, hne] using h

theorem navInv_ctrlShow (s t : Side) (st : NavState) (h : NavInv t st) :
    NavInv t (ctrlShow s st) := by
  unfold NavInv at h ⊢
  rw [ctrlShow_root, ctrlShow_elemOf]
  by_cases hts : t = s
  · subst hts
    simp [mem_addClass_iff, mem_removeClass_iff]
  · have hne : hasNavbarClass t ≠ hasNavbarClass s := hasNavbarClass_ne t s hts
    simpa [hts, mem_addClass_iff, hne] using h

theorem navInv_applyMethod (m : Method) (s t : Side) (st : NavState)
    (h : NavInv t st) : NavInv t (applyMethod m s st) := by
  cases m
  · exact navInv_ctrlHide s t st h
  · exact navInv_ctrlShow s t st h
  · exact navInv_ctrlShow s t st h
  · exact navInv_ctrlHide s t st h

theorem reachable_navInv (st : NavState) (t : Side)
    (h : ReachableFrom stInit st) : NavInv t st := by
  induction h with
  | refl => cases t <;> decide
  | step st1 m s _ ih => exact navInv_applyMethod m s t st1 ih

theorem navInv_iff_visible_or_hidden (s : Side) (st : NavState) :
    NavInv s st ↔ (VisibleC s st ∨ HiddenC s st) := by
  unfold NavInv VisibleC HiddenC
  by_cases hh : "ng-hide" ∈ st.elemOf s <;>
    by_cases hr : hasNavbarClass s ∈ st.root <;> simp [hh, hr]

/-! The claims. -/

/-- C1: for every side in top, bottom, the registered side controller show
method makes that navbar visible (after it runs, the navbar element does
not carry ng-hide and the root element carries has-navbar-side) and the
hide method makes it hidden (after it runs, the navbar element carries
ng-hide and the root element does not carry has-navbar-side). -/
theorem C1_show_hide_visibility (s : Side) (st : NavState) :
    ("ng-hide" ∉ (ctrlShow s st).elemOf s ∧ hasNavbarClass s ∈ (ctrlShow s st).root) ∧
    ("ng-hide" ∈ (ctrlHide s st).elemOf s ∧ hasNavbarClass s ∉ (ctrlHide s st).root) := by
  refine ⟨⟨?_, ?_⟩, ?_, ?_⟩
  · simp [ctrlShow_elemOf, mem_removeClass_iff]
  · simp [ctrlShow_root, mem_addClass_iff]
  · simp [ctrlHide_elemOf, mem_addClass_iff]
  · simp [ctrlHide_root, mem_removeClass_iff]

/-- C2: each of the four side controller operations preserves the
invariant that for each navbar the navbar element carries ng-hide exactly
when the root element does not carry the has-navbar class of that side. -/
theorem C2_invariant_preserved (m : Method) (s : Side) (st : NavState)
    (h : NavInv Side.top st ∧ NavInv Side.bottom st) :
    NavInv Side.top (applyMethod m s st) ∧ NavInv Side.bottom (applyMethod m s st) :=
  ⟨navInv_applyMethod m s Side.top st h.1, navInv_applyMethod m s Side.bottom st h.2⟩

theorem C2_invariant_preserved_witness :
    (NavInv Side.top stInit ∧ NavInv Side.bottom stInit) ∧
    (NavInv Side.top (applyMethod Method.hide Side.top stInit) ∧
      NavInv Side.bottom (applyMethod Method.hide Side.top stInit)) :=
  ⟨by decide, C2_invariant_preserved Method.hide Side.top stInit (by decide)⟩

/-- C3 counterexample: after only the top navbar directive has linked, the
shared controller global is defined, yet linking a Both toggle directive
fails, because the bottom slot of global is undefined; so global being
defined does not make the method dispatch failure-free. -/
theorem C3_counterexample :
    (navbarAbsoluteLink Side.top ctrl0 ms0).global.isSome = true ∧
    toggleLink Nav.Both Method.hide (navbarAbsoluteLink Side.top ctrl0 ms0).global
      (navbarAbsoluteLink Side.top ctrl0 ms0).dom = none := by
  decide

/-- C3 amended: the toggle directive dispatch never fails provided every
side controller the variant invokes has been registered on global (for the
Both variants both the bottom and the top controller, for Top and Bottom
the matching one). -/
theorem C3_dispatch_no_failure (nav : Nav) (m : Method) (g : NavCtrl) (st : NavState)
    (h : referencedRegistered nav g) :
    (toggleLink nav m (some g) st).isSome = true := by
  cases nav with
  | Top =>
    obtain ⟨c, hc⟩ := Option.isSome_iff_exists.mp h
    simp [toggleLink, dispatch, hc]
  | Bottom =>
    obtain ⟨c, hc⟩ := Option.isSome_iff_exists.mp h
    simp [toggleLink, dispatch, hc]
  | Both =>
    obtain ⟨cb, hcb⟩ := Option.isSome_iff_exists.mp h.1
    obtain ⟨ct, hct⟩ := Option.isSome_iff_exists.mp h.2
    simp [toggleLink, dispatch, hcb, hct]

theorem C3_dispatch_no_failure_witness :
    referencedRegistered Nav.Both gFull ∧
    (toggleLink Nav.Both Method.hide (some gFull) stInit).isSome = true :=
  ⟨⟨rfl, rfl⟩, C3_dispatch_no_failure Nav.Both Method.hide gFull stInit ⟨rfl, rfl⟩⟩

/-- C4: for every side and state, slidein produces exactly the state show
produces, and slideout produces exactly the state hide produces: the
animated variants and the plain variants are extensionally equal. -/
theorem C4_slide_variants_eq (s : Side) (st : NavState) :
    ctrlSlidein s st = ctrlShow s st ∧ ctrlSlideout s st = ctrlHide s st :=
  ⟨rfl, rfl⟩

/-- C5 counterexample: no state reachable from the linked initial state
under the four operations has a navbar in a condition distinct from both
visible and hidden; the class state admits no third, mid-transition
condition. -/
theorem C5_no_midtransition :
    ¬ ∃ st, ReachableFrom stInit st ∧
      (MidTransitionC Side.top st ∨ MidTransitionC Side.bottom st) := by
  rintro ⟨st, hreach, hmid | hmid⟩
  · rcases (navInv_iff_visible_or_hidden Side.top st).mp
      (reachable_navInv st Side.top hreach) with hv | hh
    · exact hmid.1 hv
    · exact hmid.2 hh
  · rcases (navInv_iff_visible_or_hidden Side.bottom st).mp
      (reachable_navInv st Side.bottom hreach) with hv | hh
    · exact hmid.1 hv
    · exact hmid.2 hh

/-- C5 amended: the shared navbar state distinguishes exactly two
conditions per navbar, visible and hidden: in every state reachable from
the linked initial state under the four operations, each navbar is either
visible or hidden. -/
theorem C5_two_conditions (st : NavState) (t : Side)
    (h : ReachableFrom stInit st) :
    VisibleC t st ∨ HiddenC t st :=
  (navInv_iff_visible_or_hidden t st).mp (reachable_navInv st t h)

theorem C5_two_conditions_witness :
    ReachableFrom stInit (applyMethod Method.slideout Side.top stInit) ∧
    (VisibleC Side.top (applyMethod Method.slideout Side.top stInit) ∨
      HiddenC Side.top (applyMethod Method.slideout Side.top stInit)) :=
  ⟨ReachableFrom.step stInit Method.slideout Side.top ReachableFrom.refl,
    C5_two_conditions (applyMethod Method.slideout Side.top stInit) Side.top
      (ReachableFrom.step stInit Method.slideout Side.top ReachableFrom.refl)⟩

/-- C6: the module-level variable global is assigned by the first navbar
directive to link (it gets the identity of that directive controller
instance) and is never reassigned by later navbar directive links (the
identity of the stored controller is preserved, whatever fresh controller
the later link carries). -/
theorem C6_global_assigned_once (side : Side) (ctrl : NavCtrl) (ms : ModState) :
    (ms.global = none →
      ∃ g, (navbarAbsoluteLink side ctrl ms).global = some g ∧ g.id = ctrl.id) ∧
    (∀ g0, ms.global = some g0 →
      ∃ g, (navbarAbsoluteLink side ctrl ms).global = some g ∧ g.id = g0.id) := by
  constructor
  · intro h
    refine ⟨ctrl.registerController side side, ?_, registerController_id ctrl side side⟩
    simp [navbarAbsoluteLink, h]
  · intro g0 h
    refine ⟨g0.registerController side side, ?_, registerController_id g0 side side⟩
    simp [navbarAbsoluteLink, h]

theorem C6_global_assigned_once_witness :
    (ms0.global = none ∧
      ∃ g, (navbarAbsoluteLink Side.top ctrl0 ms0).global = some g ∧ g.id = ctrl0.id) ∧
    (∃ g, (navbarAbsoluteLink Side.bottom ctrl1
        (navbarAbsoluteLink Side.top ctrl0 ms0)).global = some g ∧ g.id = ctrl0.id) :=
  ⟨⟨rfl, (C6_global_assigned_once Side.top ctrl0 ms0).1 rfl⟩,
    (C6_global_assigned_once Side.bottom ctrl1 (navbarAbsoluteLink Side.top ctrl0 ms0)).2
      (ctrl0.registerController Side.top Side.top) rfl⟩

/-- C7: with both side controllers registered, linking a Both toggle
directive applies the method first to the bottom controller and then to
the top controller, while the Top and Bottom variants apply it only to the
matching single controller. -/
theorem C7_both_applies_bottom_then_top (m : Method) (g : NavCtrl) (st : NavState)
    (hb : g.slot Side.bottom = some Side.bottom) (ht : g.slot Side.top = some Side.top) :
    toggleLink Nav.Both m (some g) st =
      some (applyMethod m Side.top (applyMethod m Side.bottom st)) ∧
    toggleLink Nav.Top m (some g) st = some (applyMethod m Side.top st) ∧
    toggleLink Nav.Bottom m (some g) st = some (applyMethod m Side.bottom st) := by
  refine ⟨?_, ?_, ?_⟩ <;> simp [toggleLink, dispatch, hb, ht]

theorem C7_both_applies_bottom_then_top_witness :
    (gFull.slot Side.bottom = some Side.bottom ∧ gFull.slot Side.top = some Side.top) ∧
    toggleLink Nav.Both Method.show (some gFull) stInit =
      some (applyMethod Method.show Side.top (applyMethod Method.show Side.bottom stInit)) :=
  ⟨⟨rfl, rfl⟩, (C7_both_applies_bottom_then_top Method.show gFull stInit rfl rfl).1⟩

/-- C8: when global is undefined, linking any toggle directive is a no-op:
it returns the DOM state unchanged (every class on every element is left
as it was) and does not fail. -/
theorem C8_noop_when_global_undefined (nav : Nav) (m : Method) (st : NavState) :
    toggleLink nav m none st = some st :=
  rfl

/-- C9: each of the four side controller operations is idempotent on the
class state: applying the same operation twice in a row yields the same
state as applying it once. -/
theorem C9_operations_idempotent (m : Method) (s : Side) (st : NavState) :
    applyMethod m s (applyMethod m s st) = applyMethod m s st := by
  cases m <;> cases s <;>
    simp [applyMethod, ctrlHide, ctrlShow, ctrlSlidein, ctrlSlideout,
      NavState.setElem, NavState.elemOf, addClass_idem, removeClass_idem]

end Navbars
